import Mathlib

/-!
Shallow embedding of src/openssh_wrapper.py from the openssh-wrapper
repository, together with theorems settling the frozen claims about it.

Conventions of the embedding:
- Python str and bytes are both modelled as String: the helpers b and u of
  the module convert between the two representations without changing the
  character content, and b_list and u_list map them over lists.
- A Python call that may raise is modelled as Py alpha, either ok or err.
- Child processes are not executed. Each subprocess.Popen call is recorded
  as an Event.spawn carrying the argv, and the behaviour of the child
  (captured output and exit status, or an IOError raised out of
  pipe.communicate, which is what the SIGALRM timeout handler produces) is
  an explicit ExecOutcome argument of the embedded method.
- shutil.rmtree of the scratch directory is recorded as an Event.rmtree.
- Filesystem checks done in the constructor (os.path.isfile on the config
  and identity files, os.path.isdir on the control path directory) and the
  os.path.expanduser rewrites are elided: they are treated as passing and
  as the identity, since no verified claim depends on them.
- tempfile.mkdtemp and tempfile.mkstemp return fresh names chosen by the
  operating system: the scratch directory name is an explicit argument and
  the anonymous temporary files are named anon0, anon1, ... inside it.
-/

set_option autoImplicit false

namespace OpensshWrapper

/-- Exceptions the embedded code can raise: SSHError (the single error class
of the module, line 758), and ValueError and NameError raised by the Python
runtime. -/
inductive PyErr where
  | sshError (msg : String)
  | valueError (msg : String)
  | nameError (nm : String)
deriving DecidableEq

/-- Result of a Python call: a returned value or a raised exception. -/
inductive Py (α : Type) where
  | ok (val : α)
  | err (e : PyErr)
deriving DecidableEq

/-- Test whether an outcome is a raised SSHError. -/
def Py.isSSHError {α : Type} : Py α → Bool
  | Py.err (PyErr.sshError _) => true
  | _ => false

/-- Truthiness of a Python string: non-empty. -/
def truthyS (s : String) : Bool := if s = "" then false else true

/-- Truthiness of an optional string attribute (None or a string). -/
def truthyOpt : Option String → Bool
  | some s => truthyS s
  | none => false

/-- Value of an optional attribute at a use site where the code has already
established it is set. -/
def optVal (o : Option String) : String := o.getD ""

/-- Python whitespace characters stripped by str.strip(). -/
def py_space (ch : Char) : Bool :=
  ch == ' ' || ch == '\t' || ch == '\n' || ch == '\r' || ch == '\x0b' || ch == '\x0c'

/-- Python bytes.strip() and str.strip(): remove leading and trailing
whitespace. Implemented structurally over the character list so that it
evaluates inside the kernel. -/
def pyStrip (s : String) : String :=
  ⟨((s.data.dropWhile py_space).reverse.dropWhile py_space).reverse⟩

/-- Characters accepted by the regular expression of check_server and
check_login: ASCII letters, digits, dot, dash, underscore. -/
def ident_char (ch : Char) : Bool :=
  ch.isAlphanum || ch == '.' || ch == '-' || ch == '_'

/-- check_server and check_login, lines 240-260: the whole string must be a
non-empty run of ident_char characters. -/
def check_ident (s : String) : Bool :=
  !s.data.isEmpty && s.data.all ident_char

/-- Characters of a path after the last slash. -/
def after_last_slash : List Char → List Char
  | [] => []
  | c :: rest =>
      if c == '/' || rest.contains '/' then after_last_slash rest
      else c :: rest

/-- os.path.basename for POSIX paths: the part after the last slash. -/
def path_basename (s : String) : String :=
  ⟨after_last_slash s.data⟩

/-- os.path.join for POSIX paths, two arguments: an absolute second argument
wins; otherwise the parts are joined, adding a slash unless the first part
is empty or already ends with one. -/
def path_join (a t : String) : String :=
  if t.data.head? == some '/' then t
  else if a == "" || a.data.getLast? == some '/' then a ++ t
  else a ++ "/" ++ t

/-- Characters that pipes.quote leaves unquoted: ASCII word characters and
at-sign, percent, plus, equals, colon, comma, dot, slash, dash. -/
def shell_safe (ch : Char) : Bool :=
  ch.isAlphanum || ch == '_' || ch == '@' || ch == '%' || ch == '+' ||
    ch == '=' || ch == ':' || ch == ',' || ch == '.' || ch == '/' || ch == '-'

/-- pipes.quote as used by b_quote and get_scp_targets. -/
def pipes_quote (s : String) : String :=
  if s == "" then "\x27\x27"
  else if s.data.all shell_safe then s
  else "\x27" ++ s.replace "\x27" "\x27\x22\x27\x22\x27" ++ "\x27"

/-- b_quote, lines 58-67: quote every chunk and join with single spaces. -/
def b_quote (chunks : List String) : String :=
  String.intercalate " " (chunks.map pipes_quote)

/-- Observable side effects of an embedded call: spawning a child process
with a given argv, and removing a directory tree with shutil.rmtree. -/
inductive Event where
  | spawn (argv : List String)
  | rmtree (dir : String)
deriving DecidableEq

/-- Behaviour of one spawned child process, supplied as an oracle: either
pipe.communicate raises IOError (what the SIGALRM timeout handler causes),
or the child runs to completion with captured stdout, stderr and exit
status. -/
inductive ExecOutcome where
  | ioError (msg : String)
  | completed (out err : String) (rc : Int)
deriving DecidableEq

/-- SSHResult, lines 695-715. Fields: command, stdout, stderr, returncode. -/
structure SSHResult where
  command : String
  stdout : String
  stderr : String
  returncode : Int
deriving DecidableEq

/-- Tunnel value: SSHForwardingTunnel (forwardDir true, option -L) or
SSHRevForwardingTunnel (forwardDir false, option -R), lines 69-130. -/
structure SSHTunnel where
  forwardDir : Bool
  local_addr : String
  local_port : Nat
  remote_addr : String
  remote_port : Nat
deriving DecidableEq

/-- Constructor of the tunnel classes, lines 80-81: a zero local or remote
port raises SSHError. -/
def SSHTunnel.make (dir : Bool) (la : String) (lp : Nat) (ra : String) (rp : Nat) :
    Py SSHTunnel :=
  if lp = 0 || rp = 0 then
    Py.err (PyErr.sshError "SSHTunnel objects require the local port and the remote port to be set and non-zero.")
  else Py.ok ⟨dir, la, lp, ra, rp⟩

/-- String form of a tunnel as appended to the ssh argv, lines 88-130. -/
def SSHTunnel.render (t : SSHTunnel) : String :=
  (if t.forwardDir then "-L " else "-R ") ++ t.local_addr ++ ":" ++ toString t.local_port
    ++ ":" ++ t.remote_addr ++ ":" ++ toString t.remote_port

/-- One element of the files argument of scp: a path string, a file-like
object with a name attribute, or a file-like object without one. -/
inductive FileSource where
  | path (name : String)
  | bytesNamed (name : String) (content : String)
  | bytesAnon (content : String)
deriving DecidableEq

/-- Connection state built by SSHConnection.init, lines 139-222.
Field order: server, port, timeout, user, debug, master, slave,
control_path, configfile, login, identity_file, ssh_agent_socket, options. -/
structure SSHConnection where
  server : String
  port : Option String
  timeout : Nat
  user : String
  debug : Bool
  master : Bool
  slave : Bool
  control_path : Option String
  configfile : Option String
  login : Option String
  identity_file : Option String
  ssh_agent_socket : Option String
  options : List String
deriving DecidableEq

/-- SSHConnection.init, lines 174-213: validates the server name, requires a
control path in master or slave mode (check_master_slave_settings, lines
262-279), and sets login, identity_file and ssh_agent_socket only when the
connection is not a slave (lines 202-213). The user argument models
getpass.getuser(). File existence checks and expanduser are elided. In
master mode the constructor additionally spawns the control-channel child
(lines 215-222); that spawn is outside the scope of the verified claims and
is not recorded here. -/
def SSHConnection.make (server : String) (login : Option String) (port : Option String)
    (configfile : Option String) (identity_file : Option String)
    (ssh_agent_socket : Option String) (timeout : Nat) (debug : Bool)
    (options : List String) (master slave : Bool) (control_path : Option String)
    (user : String) : Py SSHConnection :=
  if !check_ident server then
    Py.err (PyErr.sshError "Server name contains illegal symbols")
  else if (master || slave) && control_path.isNone then
    Py.err (PyErr.sshError "SSHConnection needs a control path when run in master or slave mode.")
  else if !slave && truthyOpt login && !check_ident (optVal login) then
    Py.err (PyErr.sshError "User login contains illegal symbols")
  else
    Py.ok ⟨server, port, timeout, user, debug, master, slave, control_path,
      (if truthyOpt configfile then configfile else none),
      (if !slave && truthyOpt login then login else none),
      (if !slave && truthyOpt identity_file then identity_file else none),
      (if slave then none else ssh_agent_socket),
      options⟩

/-- SSHConnection.ssh_command, lines 577-623: the argv for the ssh child, or
an SSHError when neither an interpreter, nor init_master, nor tunnels were
given. The minus-N flag is emitted exactly when interpreter is None (an is
None test, line 606), while the final interpreter token is appended under
truthiness (line 619). -/
def SSHConnection.ssh_command (c : SSHConnection) (interpreter : Option String)
    (forward_ssh_agent : Bool) (init_master : Bool) (tunnels : List SSHTunnel) :
    Py (List String) :=
  if !truthyOpt interpreter && !init_master && tunnels.isEmpty then
    Py.err (PyErr.sshError "SSHConnection.ssh_command(): No interpreter given.")
  else
    Py.ok (["/usr/bin/ssh"]
      ++ (if c.debug then ["-vvvv"] else [])
      ++ (if truthyOpt c.login then ["-l", optVal c.login] else [])
      ++ (if truthyOpt c.configfile then ["-F", optVal c.configfile] else [])
      ++ (if truthyOpt c.identity_file then ["-i", optVal c.identity_file] else [])
      ++ (if forward_ssh_agent then ["-A"] else [])
      ++ (if truthyOpt c.port then ["-p", optVal c.port] else [])
      ++ (if interpreter = none then ["-N"] else [])
      ++ (if c.master && init_master && c.control_path.isSome then
            ["-M", "-S", optVal c.control_path] else [])
      ++ (if c.slave && c.control_path.isSome && !init_master then
            ["-S", optVal c.control_path] else [])
      ++ tunnels.map SSHTunnel.render
      ++ (c.options.map (fun o => ["-o", o])).flatten
      ++ [c.server]
      ++ (match interpreter with
          | some i => if truthyS i then [i] else []
          | none => []))

/-- SSHConnection.scp_command, lines 649-677: the scp upload argv. An empty
file list raises ValueError (not SSHError), line 673, before any process is
spawned. The unreachable isinstance check on a plain string is not
representable, files being typed as a list. -/
def SSHConnection.scp_command (c : SSHConnection) (files : List String) (target : String) :
    Py (List String) :=
  let remotename := if truthyOpt c.login then optVal c.login ++ "@" ++ c.server else c.server
  let cmd := ["/usr/bin/scp", if c.debug then "-vvvv" else "-q", "-r"]
    ++ (if truthyOpt c.configfile then ["-F", optVal c.configfile] else [])
    ++ (if truthyOpt c.identity_file then ["-i", optVal c.identity_file] else [])
    ++ (if truthyOpt c.port then ["-P", optVal c.port] else [])
    ++ (c.options.map (fun o => ["-o", o])).flatten
  if files.length < 1 then
    Py.err (PyErr.valueError "You should name at least one file to copy")
  else
    Py.ok (cmd ++ files ++ [remotename ++ ":" ++ target])

/-- SSHConnection.scp_down_command, lines 625-647: returns None when
remotefile or localtarget is falsy, otherwise the scp download argv. It
emits no -o options. -/
def SSHConnection.scp_down_command (c : SSHConnection) (remotefile localtarget : String) :
    Option (List String) :=
  if truthyS remotefile && truthyS localtarget then
    some (["/usr/bin/scp", if c.debug then "-vvvv" else "-q", "-r"]
      ++ (if truthyOpt c.configfile then ["-F", optVal c.configfile] else [])
      ++ (if truthyOpt c.identity_file then ["-i", optVal c.identity_file] else [])
      ++ (if truthyOpt c.port then ["-P", optVal c.port] else [])
      ++ [(if truthyOpt c.login then optVal c.login ++ "@" ++ c.server else c.server)
            ++ ":" ++ remotefile]
      ++ [localtarget])
  else none

/-- SSHConnection.run, lines 281-336. A master-only connection raises
SSHError before building anything (lines 307-309). The tunnels parameter is
accepted but the body passes tunnels=[] to ssh_command (line 311). Exit
status 255 of the child raises SSHError (lines 333-335); any other status
returns an SSHResult with stripped output and that status. -/
def SSHConnection.run (c : SSHConnection) (command : String) (interpreter : Option String)
    (forward_ssh_agent : Bool) (tunnels : List SSHTunnel) (orc : ExecOutcome) :
    Py SSHResult × List Event :=
  if c.master && !c.slave then
    (Py.err (PyErr.sshError "This SSHConnection is an SSH master connection, no commands can be sent to the server on this SSHConnection."), [])
  else
    match SSHConnection.ssh_command c interpreter forward_ssh_agent false [] with
    | Py.err e => (Py.err e, [])
    | Py.ok cmd =>
      match orc with
      | ExecOutcome.ioError m =>
          (Py.err (PyErr.sshError (String.intercalate " " cmd ++ " (under " ++ c.user ++ "): " ++ m)),
           [Event.spawn cmd])
      | ExecOutcome.completed out err rc =>
          if rc = 255 then
            (Py.err (PyErr.sshError (String.intercalate " " cmd ++ " (under " ++ c.user ++ "): " ++ pyStrip err)),
             [Event.spawn cmd])
          else
            (Py.ok ⟨command, pyStrip out, pyStrip err, rc⟩, [Event.spawn cmd])

/-- SSHConnection.get_scp_targets, lines 550-575: probes test -d target
through run with the default interpreter; exit status 0 means target is a
directory and every filename is joined onto it, any other returned status
yields the single-element list. An exception raised inside run (for example
probe exit status 255) propagates. -/
def SSHConnection.get_scp_targets (c : SSHConnection) (filenames : List String)
    (target : String) (probeOrc : ExecOutcome) : Py (List String) × List Event :=
  match SSHConnection.run c ("test -d " ++ pipes_quote target) (some "/bin/bash") false [] probeOrc with
  | (Py.ok r, evs) =>
      if r.returncode = 0 then
        (Py.ok (filenames.map (fun fn => path_join target (path_basename fn))), evs)
      else
        (Py.ok [target], evs)
  | (Py.err e, evs) => (Py.err e, evs)

/-- Helper for convert_files_to_filenames: walks the file list, creating the
scratch directory at the first in-memory source; k numbers the anonymous
mkstemp files. -/
def convertAux (tmpdirName : String) : Nat → Option String → List FileSource →
    List String × Option String
  | _, tmpdir, [] => ([], tmpdir)
  | k, tmpdir, FileSource.path nm :: rest =>
      let r := convertAux tmpdirName k tmpdir rest
      (nm :: r.1, r.2)
  | k, _, FileSource.bytesNamed nm _ :: rest =>
      let r := convertAux tmpdirName k (some tmpdirName) rest
      (path_join tmpdirName (path_basename nm) :: r.1, r.2)
  | k, _, FileSource.bytesAnon _ :: rest =>
      let r := convertAux tmpdirName (k + 1) (some tmpdirName) rest
      ((tmpdirName ++ "/anon" ++ toString k) :: r.1, r.2)

/-- SSHConnection.convert_files_to_filenames, lines 514-548: path strings
pass through; file-like objects are materialised into a scratch directory
created on first need (its name is the tmpdirName oracle), keeping the
basename of a name attribute when present. Returns the filenames and the
scratch directory, None when no scratch directory was created. -/
def convert_files_to_filenames (tmpdirName : String) (files : List FileSource) :
    List String × Option String :=
  convertAux tmpdirName 0 none files

/-- SSHConnection.scp, lines 369-449. Oracles: tmpdirName for
tempfile.mkdtemp, scpOrc for the scp child, probeOrc for the test -d probe
inside get_scp_targets, chmodOrc and chownOrc for the two fixup run calls.
The code calls its local cleanup_tmp_dir before raising in the branches it
handles itself (communicate IOError, nonzero scp exit, nonzero fixup exit)
and at the end of the happy path; an SSHError raised inside self.run during
the fixup phase propagates without any cleanup call. -/
def SSHConnection.scp (c : SSHConnection) (files : List FileSource) (target : String)
    (mode owner : Option String) (tmpdirName : String)
    (scpOrc probeOrc chmodOrc chownOrc : ExecOutcome) : Py Unit × List Event :=
  if c.master && !c.slave then
    (Py.err (PyErr.sshError "This SSHConnection is an SSH master connection, no secure copying can be done over this SSHConnection."), [])
  else
    let conv := convert_files_to_filenames tmpdirName files
    let cleanup : List Event := match conv.2 with
      | some d => [Event.rmtree d]
      | none => []
    match SSHConnection.scp_command c conv.1 target with
    | Py.err e => (Py.err e, [])
    | Py.ok cmd =>
      match scpOrc with
      | ExecOutcome.ioError m =>
          (Py.err (PyErr.sshError (String.intercalate " " cmd ++ " (under " ++ c.user ++ "): " ++ m)),
           Event.spawn cmd :: cleanup)
      | ExecOutcome.completed _ err rc =>
        if rc ≠ 0 then
          (Py.err (PyErr.sshError (String.intercalate " " cmd ++ " (under " ++ c.user ++ "): " ++ pyStrip err)),
           Event.spawn cmd :: cleanup)
        else if truthyOpt mode || truthyOpt owner then
          match SSHConnection.get_scp_targets c conv.1 target probeOrc with
          | (Py.err e, pev) => (Py.err e, Event.spawn cmd :: pev)
          | (Py.ok targets, pev) =>
            let chmodStep : Py Unit × List Event :=
              if truthyOpt mode then
                match SSHConnection.run c (b_quote (["chmod", optVal mode] ++ targets))
                    (some "/bin/bash") false [] chmodOrc with
                | (Py.ok r, evs) =>
                    if r.returncode ≠ 0 then
                      (Py.err (PyErr.sshError ("change mode: " ++ pyStrip r.stderr)), evs ++ cleanup)
                    else (Py.ok (), evs)
                | (Py.err e, evs) => (Py.err e, evs)
              else (Py.ok (), [])
            match chmodStep with
            | (Py.err e, ev1) => (Py.err e, Event.spawn cmd :: (pev ++ ev1))
            | (Py.ok _, ev1) =>
              let chownStep : Py Unit × List Event :=
                if truthyOpt owner then
                  match SSHConnection.run c (b_quote (["chown", optVal owner] ++ targets))
                      (some "/bin/bash") false [] chownOrc with
                  | (Py.ok r, evs) =>
                      if r.returncode ≠ 0 then
                        (Py.err (PyErr.sshError ("change owner: " ++ pyStrip r.stderr)), evs ++ cleanup)
                      else (Py.ok (), evs)
                  | (Py.err e, evs) => (Py.err e, evs)
                else (Py.ok (), [])
              match chownStep with
              | (Py.err e, ev2) => (Py.err e, Event.spawn cmd :: (pev ++ (ev1 ++ ev2)))
              | (Py.ok _, ev2) => (Py.ok (), Event.spawn cmd :: (pev ++ (ev1 ++ (ev2 ++ cleanup))))
        else (Py.ok (), Event.spawn cmd :: cleanup)

/-- SSHConnection.scp_down, lines 451-512. When scp_down_command returns
None the method returns silently without spawning (lines 470-471). The
method has no master-only role check. Its failure branches call
cleanup_tmp_dir and its fixup step evaluates filenames and target, none of
which is bound in the scope of scp_down (they exist only inside scp), so
those statements raise NameError at run time; the embedding returns
Py.err (PyErr.nameError name) at the point where the first undefined name
is evaluated. -/
def SSHConnection.scp_down (c : SSHConnection) (remotefile localtarget : String)
    (mode owner : Option String) (orc : ExecOutcome) : Py Unit × List Event :=
  match SSHConnection.scp_down_command c remotefile localtarget with
  | none => (Py.ok (), [])
  | some cmd =>
    match orc with
    | ExecOutcome.ioError _ => (Py.err (PyErr.nameError "cleanup_tmp_dir"), [Event.spawn cmd])
    | ExecOutcome.completed _ _ rc =>
      if rc ≠ 0 then (Py.err (PyErr.nameError "cleanup_tmp_dir"), [Event.spawn cmd])
      else if truthyOpt mode || truthyOpt owner then
        (Py.err (PyErr.nameError "filenames"), [Event.spawn cmd])
      else (Py.ok (), [Event.spawn cmd])

/-- Standalone connection: server localhost, no optional settings, user
tester. Fields in declaration order of SSHConnection. -/
def cStd : SSHConnection :=
  ⟨"localhost", none, 60, "tester", false, false, false, none, none, none, none, none, []⟩

/-- Master-only connection with login alice and control path /tmp/cp. -/
def cM : SSHConnection :=
  ⟨"localhost", none, 60, "alice", false, true, false, some "/tmp/cp", none, some "alice",
   none, none, []⟩

/-- Master-and-slave connection constructed with login alice and an identity
file: the constructor leaves login and identity_file unset because slave is
true. -/
def cMS : SSHConnection :=
  ⟨"localhost", none, 60, "alice", false, true, true, some "/tmp/cp", some "ssh_config.test",
   none, none, none, []⟩

/-- Golden-vector connection of the spec: server localhost, login alice,
configfile ssh_config.test. -/
def cGold : SSHConnection :=
  ⟨"localhost", none, 60, "alice", false, false, false, none, some "ssh_config.test",
   some "alice", none, none, []⟩

/-- Standalone connection with login bob and identity file k.pem on server h. -/
def cW4 : SSHConnection :=
  ⟨"h", none, 60, "u", false, false, false, none, none, some "bob", some "k.pem", none, []⟩

/-- Taking the length of the left part of an append returns that part. -/
theorem take_append_self {α : Type} : ∀ (l r : List α), (l ++ r).take l.length = l
  | [], _ => by simp
  | a :: l, r => by simp [take_append_self l r]

/-- C1. Amended part that holds: run (lines 307-309) and scp (lines 394-396)
on a master-only connection raise SSHError and spawn no child process.
The scp_down part of the claim fails, see the counterexample. -/
theorem master_only_rejects (c : SSHConnection) (hm : c.master = true) (hs : c.slave = false)
    (command : String) (interp : Option String) (fwd : Bool) (ts : List SSHTunnel)
    (orc : ExecOutcome) (files : List FileSource) (target : String)
    (mode owner : Option String) (tmpn : String) (o1 o2 o3 o4 : ExecOutcome) :
    (SSHConnection.run c command interp fwd ts orc).1.isSSHError = true ∧
    (SSHConnection.run c command interp fwd ts orc).2 = [] ∧
    (SSHConnection.scp c files target mode owner tmpn o1 o2 o3 o4).1.isSSHError = true ∧
    (SSHConnection.scp c files target mode owner tmpn o1 o2 o3 o4).2 = [] := by
  refine ⟨?_, ?_, ?_, ?_⟩ <;>
    simp [SSHConnection.run, SSHConnection.scp, hm, hs, Py.isSSHError]

/-- Witness for master_only_rejects at the concrete master-only connection
cM with concrete call arguments. -/
theorem master_only_rejects_witness :
    cM.master = true ∧ cM.slave = false ∧
    (SSHConnection.run cM "whoami" (some "/bin/bash") false [] (ExecOutcome.completed "" "" 0)).1.isSSHError = true ∧
    (SSHConnection.run cM "whoami" (some "/bin/bash") false [] (ExecOutcome.completed "" "" 0)).2 = [] ∧
    (SSHConnection.scp cM [FileSource.path "/tmp/a"] "/tmp" none none "/tmp/s"
      (ExecOutcome.completed "" "" 0) (ExecOutcome.completed "" "" 0)
      (ExecOutcome.completed "" "" 0) (ExecOutcome.completed "" "" 0)).1.isSSHError = true ∧
    (SSHConnection.scp cM [FileSource.path "/tmp/a"] "/tmp" none none "/tmp/s"
      (ExecOutcome.completed "" "" 0) (ExecOutcome.completed "" "" 0)
      (ExecOutcome.completed "" "" 0) (ExecOutcome.completed "" "" 0)).2 = [] := by
  have h := master_only_rejects cM rfl rfl "whoami" (some "/bin/bash") false []
    (ExecOutcome.completed "" "" 0) [FileSource.path "/tmp/a"] "/tmp" none none "/tmp/s"
    (ExecOutcome.completed "" "" 0) (ExecOutcome.completed "" "" 0)
    (ExecOutcome.completed "" "" 0) (ExecOutcome.completed "" "" 0)
  exact ⟨rfl, rfl, h.1, h.2.1, h.2.2.1, h.2.2.2⟩

/-- C1 counterexample: the claim as stated is false for scp_down. The
master-only connection cM is exactly what the constructor produces, yet
scp_down performs the transfer: it spawns the scp child and raises no
error at all (scp_down has no role check, lines 451-512). -/
theorem scp_down_no_role_check_counterexample :
    SSHConnection.make "localhost" (some "alice") none none none none 60 false [] true false
      (some "/tmp/cp") "alice" = Py.ok cM ∧
    cM.master = true ∧ cM.slave = false ∧
    SSHConnection.scp_down cM "remote.txt" "/tmp/local" none none (ExecOutcome.completed "" "" 0)
      = (Py.ok (), [Event.spawn ["/usr/bin/scp", "-q", "-r", "alice@localhost:remote.txt", "/tmp/local"]]) := by
  decide

/-- C3. Exit status 255 of the exec child makes run raise SSHError; any
other status (zero or nonzero) is returned inside a successful SSHResult
with exactly that status and stripped output (lines 331-336). -/
theorem run_exit_code_policy (c : SSHConnection) (command : String) (interp : Option String)
    (fwd : Bool) (ts : List SSHTunnel) (out err : String) (rc : Int)
    (hrole : (c.master && !c.slave) = false) (hint : truthyOpt interp = true) :
    (rc = 255 →
      (SSHConnection.run c command interp fwd ts (ExecOutcome.completed out err rc)).1.isSSHError = true) ∧
    (rc ≠ 255 →
      (SSHConnection.run c command interp fwd ts (ExecOutcome.completed out err rc)).1
        = Py.ok ⟨command, pyStrip out, pyStrip err, rc⟩) := by
  constructor
  · intro h
    subst h
    simp [SSHConnection.run, SSHConnection.ssh_command, hrole, hint, Py.isSSHError]
  · intro h
    simp [SSHConnection.run, SSHConnection.ssh_command, hrole, hint, h]

/-- Witness for run_exit_code_policy on the standalone connection cStd:
status 255 raises, status 7 is returned as a successful result. -/
theorem run_exit_code_policy_witness :
    (SSHConnection.run cStd "whoami" (some "/bin/bash") false []
      (ExecOutcome.completed "me" "" 255)).1.isSSHError = true ∧
    (SSHConnection.run cStd "whoami" (some "/bin/bash") false []
      (ExecOutcome.completed "me" "" 7)).1 = Py.ok ⟨"whoami", "me", "", 7⟩ := by
  constructor
  · exact (run_exit_code_policy cStd "whoami" (some "/bin/bash") false [] "me" "" 255
      (by decide) (by decide)).1 rfl
  · have h := (run_exit_code_policy cStd "whoami" (some "/bin/bash") false [] "me" "" 7
      (by decide) (by decide)).2 (by decide)
    rw [h]
    decide

/-- C9. scp_down is broken wherever it needs the names of scp: every failed
transfer (communicate IOError or nonzero exit) raises NameError on the
undefined cleanup_tmp_dir instead of the documented SSHError, a successful
transfer with a requested mode or owner fixup raises NameError on the
undefined filenames, and no call ever spawns more than the single scp
child, so a fixup can never complete. -/
theorem scp_down_undefined_names (c : SSHConnection) (rf lt : String)
    (mode owner : Option String) (hrf : rf ≠ "") (hlt : lt ≠ "") :
    (∀ m, (SSHConnection.scp_down c rf lt mode owner (ExecOutcome.ioError m)).1
        = Py.err (PyErr.nameError "cleanup_tmp_dir")) ∧
    (∀ out err rc, rc ≠ 0 →
      (SSHConnection.scp_down c rf lt mode owner (ExecOutcome.completed out err rc)).1
        = Py.err (PyErr.nameError "cleanup_tmp_dir")) ∧
    (∀ out err, (truthyOpt mode || truthyOpt owner) = true →
      (SSHConnection.scp_down c rf lt mode owner (ExecOutcome.completed out err 0)).1
        = Py.err (PyErr.nameError "filenames")) ∧
    (∀ orc, (SSHConnection.scp_down c rf lt mode owner orc).2.length ≤ 1) := by
  refine ⟨?_, ?_, ?_, ?_⟩
  · intro m
    simp [SSHConnection.scp_down, SSHConnection.scp_down_command, truthyS, hrf, hlt]
  · intro out err rc hrc
    simp [SSHConnection.scp_down, SSHConnection.scp_down_command, truthyS, hrf, hlt, hrc]
  · intro out err hfix
    simp [SSHConnection.scp_down, SSHConnection.scp_down_command, truthyS, hrf, hlt, hfix]
  · intro orc
    cases orc with
    | ioError m =>
        simp [SSHConnection.scp_down, SSHConnection.scp_down_command, truthyS, hrf, hlt]
    | completed out err rc =>
        by_cases h0 : rc = 0
        · subst h0
          by_cases hf : (truthyOpt mode || truthyOpt owner) = true
          · simp [SSHConnection.scp_down, SSHConnection.scp_down_command, truthyS, hrf, hlt, hf]
          · simp [SSHConnection.scp_down, SSHConnection.scp_down_command, truthyS, hrf, hlt, hf]
        · simp [SSHConnection.scp_down, SSHConnection.scp_down_command, truthyS, hrf, hlt, h0]

/-- Witness for scp_down_undefined_names at concrete inputs: a failed
transfer and a successful transfer with a mode fixup both end in NameError,
and the traces stay at one spawned process. -/
theorem scp_down_undefined_names_witness :
    (SSHConnection.scp_down cStd "r.txt" "/tmp/l" (some "0644") none
      (ExecOutcome.completed "" "" 1)).1 = Py.err (PyErr.nameError "cleanup_tmp_dir") ∧
    (SSHConnection.scp_down cStd "r.txt" "/tmp/l" (some "0644") none
      (ExecOutcome.completed "" "" 0)).1 = Py.err (PyErr.nameError "filenames") ∧
    (SSHConnection.scp_down cStd "r.txt" "/tmp/l" (some "0644") none
      (ExecOutcome.completed "" "" 0)).2.length ≤ 1 := by
  have h := scp_down_undefined_names cStd "r.txt" "/tmp/l" (some "0644") none
    (by decide) (by decide)
  exact ⟨h.2.1 "" "" 1 (by decide), h.2.2.1 "" "" (by decide),
    h.2.2.2 (ExecOutcome.completed "" "" 0)⟩

/-- C10. When remotefile or localtarget is falsy, scp_down_command returns
None (lines 631, 647) and scp_down returns silently: no spawn, no error
(lines 470-471). -/
theorem scp_down_silent_skip (c : SSHConnection) (rf lt : String)
    (mode owner : Option String) (orc : ExecOutcome) (h : rf = "" ∨ lt = "") :
    SSHConnection.scp_down_command c rf lt = none ∧
    SSHConnection.scp_down c rf lt mode owner orc = (Py.ok (), []) := by
  rcases h with h | h <;> subst h <;>
    simp [SSHConnection.scp_down, SSHConnection.scp_down_command, truthyS]

/-- Witness for scp_down_silent_skip: an empty remote file name makes the
download a silent no-op. -/
theorem scp_down_silent_skip_witness :
    SSHConnection.scp_down_command cStd "" "/tmp/l" = none ∧
    SSHConnection.scp_down cStd "" "/tmp/l" (some "0644") none
      (ExecOutcome.completed "" "" 0) = (Py.ok (), []) :=
  scp_down_silent_skip cStd "" "/tmp/l" (some "0644") none
    (ExecOutcome.completed "" "" 0) (Or.inl rfl)

/-- C2. The cleanup of the scratch directory is skipped on the fixup path
that raises: with an in-memory byte source (so a scratch directory is
created), a successful transfer, and a chmod fixup whose exec child exits
255, run raises SSHError inside the fixup and scp propagates it without
ever calling cleanup_tmp_dir: no rmtree event appears in the trace. This
contradicts the removed-on-every-path claim at a concrete, constructor-
reachable input. -/
theorem scp_fixup_raise_leaks_tmpdir :
    SSHConnection.make "localhost" none none none none none 60 false [] false false none "tester"
      = Py.ok cStd ∧
    (convert_files_to_filenames "/tmp/scratch1" [FileSource.bytesAnon "data"]).2
      = some "/tmp/scratch1" ∧
    (SSHConnection.scp cStd [FileSource.bytesAnon "data"] "/tmp/x" (some "0644") none "/tmp/scratch1"
      (ExecOutcome.completed "" "" 0) (ExecOutcome.completed "" "" 1)
      (ExecOutcome.completed "" "" 255) (ExecOutcome.completed "" "" 0)).1.isSSHError = true ∧
    Event.rmtree "/tmp/scratch1" ∉
      (SSHConnection.scp cStd [FileSource.bytesAnon "data"] "/tmp/x" (some "0644") none "/tmp/scratch1"
        (ExecOutcome.completed "" "" 0) (ExecOutcome.completed "" "" 1)
        (ExecOutcome.completed "" "" 255) (ExecOutcome.completed "" "" 0)).2 := by
  decide

/-- Taking the length of a five-segment right-associated prefix of an
append returns that prefix. -/
theorem take_append_assoc5 {α : Type} (l₁ l₂ l₃ l₄ l₅ r : List α) :
    (l₁ ++ (l₂ ++ (l₃ ++ (l₄ ++ (l₅ ++ r))))).take (l₁ ++ (l₂ ++ (l₃ ++ (l₄ ++ l₅)))).length
      = l₁ ++ (l₂ ++ (l₃ ++ (l₄ ++ l₅))) := by
  have h : l₁ ++ (l₂ ++ (l₃ ++ (l₄ ++ (l₅ ++ r))))
      = (l₁ ++ (l₂ ++ (l₃ ++ (l₄ ++ l₅)))) ++ r := by
    simp [List.append_assoc]
  rw [h]
  exact take_append_self _ _

/-- C4 (amended). For any connection produced by the constructor, the login
and identity_file attributes are set exactly when the connection is not a
slave at all (lines 202-213) and the given value is truthy, and every argv
built by ssh_command starts with the fixed prefix: the ssh binary, the
verbose flag when debug, the token pair -l login exactly when the login
attribute is set, the config-file pair, and the identity-file pair exactly
when the identity_file attribute is set. Hence -l as well as -i are emitted
exactly when the value was given and slave is false, not merely when the
role is not pure-Secondary. -/
theorem login_identity_flag_emission
    (server : String) (login port configfile identity_file agent : Option String)
    (timeout : Nat) (debug : Bool) (options : List String) (master slave : Bool)
    (cpath : Option String) (user : String) (c : SSHConnection)
    (interp : Option String) (fwd im : Bool) (ts : List SSHTunnel) (argv : List String)
    (hmk : SSHConnection.make server login port configfile identity_file agent timeout debug
      options master slave cpath user = Py.ok c)
    (hcmd : SSHConnection.ssh_command c interp fwd im ts = Py.ok argv) :
    c.login = (if !slave && truthyOpt login then login else none) ∧
    c.identity_file = (if !slave && truthyOpt identity_file then identity_file else none) ∧
    argv.take (["/usr/bin/ssh"] ++ (if c.debug then ["-vvvv"] else [])
        ++ (if truthyOpt c.login then ["-l", optVal c.login] else [])
        ++ (if truthyOpt c.configfile then ["-F", optVal c.configfile] else [])
        ++ (if truthyOpt c.identity_file then ["-i", optVal c.identity_file] else [])).length
      = ["/usr/bin/ssh"] ++ (if c.debug then ["-vvvv"] else [])
        ++ (if truthyOpt c.login then ["-l", optVal c.login] else [])
        ++ (if truthyOpt c.configfile then ["-F", optVal c.configfile] else [])
        ++ (if truthyOpt c.identity_file then ["-i", optVal c.identity_file] else []) := by
  refine ⟨?_, ?_, ?_⟩
  · unfold SSHConnection.make at hmk
    split at hmk
    · exact Py.noConfusion hmk
    · split at hmk
      · exact Py.noConfusion hmk
      · split at hmk
        · exact Py.noConfusion hmk
        · injection hmk with h
          subst h
          rfl
  · unfold SSHConnection.make at hmk
    split at hmk
    · exact Py.noConfusion hmk
    · split at hmk
      · exact Py.noConfusion hmk
      · split at hmk
        · exact Py.noConfusion hmk
        · injection hmk with h
          subst h
          rfl
  · unfold SSHConnection.ssh_command at hcmd
    split at hcmd
    · exact Py.noConfusion hcmd
    · injection hcmd with h2
      subst h2
      simp only [List.append_assoc]
      exact take_append_assoc5 _ _ _ _ _ _

/-- Witness for login_identity_flag_emission on a standalone connection with
login bob and identity file k.pem. -/
theorem login_identity_flag_emission_witness :
    cW4.login = some "bob" ∧ cW4.identity_file = some "k.pem" ∧
    (["/usr/bin/ssh", "-l", "bob", "-i", "k.pem", "h", "/bin/bash"] : List String).take 5
      = ["/usr/bin/ssh", "-l", "bob", "-i", "k.pem"] := by
  have h := login_identity_flag_emission "h" (some "bob") none none (some "k.pem") none 60 false
    [] false false none "u" cW4 (some "/bin/bash") false false []
    ["/usr/bin/ssh", "-l", "bob", "-i", "k.pem", "h", "/bin/bash"] (by decide) (by decide)
  exact ⟨h.1, h.2.1, h.2.2⟩

/-- C4 counterexample: cMS is exactly what the constructor produces for
master=True, slave=True with login alice and an identity file given, which
is a PrimaryAndSecondary role and not pure-Secondary. Yet the built argv
contains neither -l nor -i: the constructor suppresses login and
identity_file for every slave connection, not only for pure-Secondary
ones. This matches the repository test test_masterslave_ssh_command. -/
theorem login_flag_suppressed_counterexample :
    SSHConnection.make "localhost" (some "alice") none (some "ssh_config.test") (some "id_rsa")
      none 60 false [] true true (some "/tmp/cp") "alice" = Py.ok cMS ∧
    SSHConnection.ssh_command cMS (some "/bin/bash") false false []
      = Py.ok ["/usr/bin/ssh", "-F", "ssh_config.test", "-S", "/tmp/cp", "localhost", "/bin/bash"] ∧
    "-l" ∉ ["/usr/bin/ssh", "-F", "ssh_config.test", "-S", "/tmp/cp", "localhost", "/bin/bash"] ∧
    "-i" ∉ ["/usr/bin/ssh", "-F", "ssh_config.test", "-S", "/tmp/cp", "localhost", "/bin/bash"] := by
  decide

/-- C5 (amended). ssh_command is a pure function, hence deterministic, and
on the golden configuration (server localhost, login alice, configfile
ssh_config.test, interpreter /bin/bash) it returns exactly the argv of the
repository test, whose first element is the client binary path
/usr/bin/ssh. -/
theorem ssh_command_deterministic_golden :
    (∀ (c : SSHConnection) (interp : Option String) (fwd im : Bool) (ts : List SSHTunnel),
      SSHConnection.ssh_command c interp fwd im ts = SSHConnection.ssh_command c interp fwd im ts) ∧
    SSHConnection.make "localhost" (some "alice") none (some "ssh_config.test") none none 60 false
      [] false false none "alice" = Py.ok cGold ∧
    SSHConnection.ssh_command cGold (some "/bin/bash") false false []
      = Py.ok ["/usr/bin/ssh", "-l", "alice", "-F", "ssh_config.test", "localhost", "/bin/bash"] :=
  ⟨fun _ _ _ _ _ => rfl, by decide, by decide⟩

/-- C5 counterexample: on the golden configuration the argv does not start
with the bare word ssh claimed by the golden vector; its first element is
the path /usr/bin/ssh (line 593). -/
theorem ssh_command_golden_vector_counterexample :
    SSHConnection.ssh_command cGold (some "/bin/bash") false false []
      = Py.ok ["/usr/bin/ssh", "-l", "alice", "-F", "ssh_config.test", "localhost", "/bin/bash"] ∧
    SSHConnection.ssh_command cGold (some "/bin/bash") false false []
      ≠ Py.ok ["ssh", "-l", "alice", "-F", "ssh_config.test", "localhost", "/bin/bash"] := by
  decide

/-- C6 (amended). When the test -d probe exits 0 the targets are each
filename joined onto the target directory, in order; when it exits with a
nonzero status other than 255 the single-element list with the target is
returned regardless of the number of filenames; a probe exit status of 255
makes the run helper raise SSHError, which propagates instead of any
return value. -/
theorem get_scp_targets_policy (c : SSHConnection) (filenames : List String)
    (target out err : String) (rc : Int) (hrole : (c.master && !c.slave) = false) :
    ((SSHConnection.get_scp_targets c filenames target (ExecOutcome.completed out err 0)).1
        = Py.ok (filenames.map (fun fn => path_join target (path_basename fn)))) ∧
    (rc ≠ 0 → rc ≠ 255 →
      (SSHConnection.get_scp_targets c filenames target (ExecOutcome.completed out err rc)).1
        = Py.ok [target]) ∧
    ((SSHConnection.get_scp_targets c filenames target
        (ExecOutcome.completed out err 255)).1.isSSHError = true) := by
  refine ⟨?_, ?_, ?_⟩
  · simp [SSHConnection.get_scp_targets, SSHConnection.run, SSHConnection.ssh_command,
      hrole, truthyOpt, truthyS]
  · intro h0 h255
    simp [SSHConnection.get_scp_targets, SSHConnection.run, SSHConnection.ssh_command,
      hrole, truthyOpt, truthyS, h0, h255]
  · simp [SSHConnection.get_scp_targets, SSHConnection.run, SSHConnection.ssh_command,
      hrole, truthyOpt, truthyS, Py.isSSHError]

/-- Witness for get_scp_targets_policy reproducing the two examples of the
spec on the standalone connection cStd. -/
theorem get_scp_targets_policy_witness :
    (SSHConnection.get_scp_targets cStd ["a.txt", "b.txt"] "/etc"
        (ExecOutcome.completed "" "" 0)).1 = Py.ok ["/etc/a.txt", "/etc/b.txt"] ∧
    (SSHConnection.get_scp_targets cStd ["a.txt"] "/etc/passwd"
        (ExecOutcome.completed "" "" 1)).1 = Py.ok ["/etc/passwd"] := by
  constructor
  · have h := (get_scp_targets_policy cStd ["a.txt", "b.txt"] "/etc" "" "" 0 rfl).1
    rw [h]
    decide
  · exact (get_scp_targets_policy cStd ["a.txt"] "/etc/passwd" "" "" 1 rfl).2.1
      (by decide) (by decide)

/-- C6 counterexample: with a probe exit status of 255 the claim as stated
requires the return value to be the single-element list with the target,
but get_scp_targets raises SSHError instead. -/
theorem probe_client_error_counterexample :
    (SSHConnection.get_scp_targets cStd ["a.txt"] "/etc"
        (ExecOutcome.completed "" "" 255)).1.isSSHError = true ∧
    (SSHConnection.get_scp_targets cStd ["a.txt"] "/etc"
        (ExecOutcome.completed "" "" 255)).1 ≠ Py.ok ["/etc"] := by
  decide

/-- C7. An empty file list makes scp_command raise ValueError (line 673),
and scp propagates it before spawning anything: the event trace is empty.
The raised error is a ValueError, not a member of the SSHError family that
the module documentation promises for all its errors. -/
theorem scp_empty_files_value_error (c : SSHConnection) (target : String)
    (mode owner : Option String) (tmpn : String) (o1 o2 o3 o4 : ExecOutcome)
    (hrole : (c.master && !c.slave) = false) :
    SSHConnection.scp_command c [] target
      = Py.err (PyErr.valueError "You should name at least one file to copy") ∧
    SSHConnection.scp c [] target mode owner tmpn o1 o2 o3 o4
      = (Py.err (PyErr.valueError "You should name at least one file to copy"), []) := by
  constructor
  · simp [SSHConnection.scp_command]
  · simp [SSHConnection.scp, SSHConnection.scp_command, convert_files_to_filenames,
      convertAux, hrole]

/-- Witness for scp_empty_files_value_error on the standalone connection. -/
theorem scp_empty_files_value_error_witness :
    SSHConnection.scp_command cStd [] "/tmp"
      = Py.err (PyErr.valueError "You should name at least one file to copy") ∧
    SSHConnection.scp cStd [] "/tmp" none none "/tmp/s"
      (ExecOutcome.completed "" "" 0) (ExecOutcome.completed "" "" 0)
      (ExecOutcome.completed "" "" 0) (ExecOutcome.completed "" "" 0)
      = (Py.err (PyErr.valueError "You should name at least one file to copy"), []) :=
  scp_empty_files_value_error cStd "/tmp" none none "/tmp/s"
    (ExecOutcome.completed "" "" 0) (ExecOutcome.completed "" "" 0)
    (ExecOutcome.completed "" "" 0) (ExecOutcome.completed "" "" 0) rfl

/-- C8. run ignores its tunnels parameter: the call passes tunnels=[] to
ssh_command (line 311), so the result is identical to a call with an empty
tunnel list and the only spawned argv is exactly the ssh_command argv built
without any tunnel fragment. -/
theorem run_tunnels_unused (c : SSHConnection) (command : String) (interp : Option String)
    (fwd : Bool) (tunnels : List SSHTunnel) (orc : ExecOutcome) :
    SSHConnection.run c command interp fwd tunnels orc
      = SSHConnection.run c command interp fwd [] orc ∧
    (∀ argv, (c.master && !c.slave) = false →
      SSHConnection.ssh_command c interp fwd false [] = Py.ok argv →
      (SSHConnection.run c command interp fwd tunnels orc).2 = [Event.spawn argv]) := by
  constructor
  · rfl
  · intro argv hrole hcmd
    cases orc with
    | ioError m => simp [SSHConnection.run, hrole, hcmd]
    | completed out err rc =>
        by_cases h255 : rc = 255 <;> simp [SSHConnection.run, hrole, hcmd, h255]

/-- Forwarding tunnel localhost:8080 to localhost:80 used by the witness. -/
def tun1 : SSHTunnel := ⟨true, "localhost", 8080, "localhost", 80⟩

/-- Witness for run_tunnels_unused: a run call with a non-empty tunnel list
equals the call without tunnels, and its only spawned argv carries no
tunnel fragment. -/
theorem run_tunnels_unused_witness :
    SSHConnection.run cStd "whoami" (some "/bin/bash") false [tun1] (ExecOutcome.completed "" "" 0)
      = SSHConnection.run cStd "whoami" (some "/bin/bash") false [] (ExecOutcome.completed "" "" 0) ∧
    (SSHConnection.run cStd "whoami" (some "/bin/bash") false [tun1]
        (ExecOutcome.completed "" "" 0)).2
      = [Event.spawn ["/usr/bin/ssh", "localhost", "/bin/bash"]] := by
  have h := run_tunnels_unused cStd "whoami" (some "/bin/bash") false [tun1]
    (ExecOutcome.completed "" "" 0)
  exact ⟨h.1, h.2 ["/usr/bin/ssh", "localhost", "/bin/bash"] rfl (by decide)⟩

end OpensshWrapper
